import Mathlib

/-!
Verification development for the i3speedex migration pipeline
(S9 MySQL → DynamoDB migration scripts).

The Python sources are shallowly embedded as Lean definitions:

* numeric values are modelled as exact rationals (`ℚ`); Python's `round`
  (round-half-to-even at a given number of decimal digits) is modelled by
  `round4` on rationals;
* JSON values flowing through the pipeline are modelled by `JValue`, and
  Python dictionaries produced/consumed by the scripts by association
  lists (`Dict`) with first-match lookup (`dlookup`);
* Python truthiness (`if x:` / `x or default`) is modelled by `truthy`
  and the `pyOr*` helpers;
* fallible operations (database queries, exceptions raised by the
  validator on malformed values) are modelled with `Except`.
-/

/-! ## Python numeric model: round-half-to-even (`round(x, 4)`)

`roundHalfEven x` is the integer nearest to `x`, ties going to the even
integer — the rounding Python's builtin `round` uses.  `round4` models
`round(x, 4)` on the exact-rational reading of the program's arithmetic. -/

def roundHalfEven (x : ℚ) : ℤ :=
  let n : ℤ := ⌊x⌋
  let f : ℚ := x - n
  if f < 1/2 then n
  else if 1/2 < f then n + 1
  else if n % 2 = 0 then n else n + 1

def round4 (x : ℚ) : ℚ :=
  ((roundHalfEven (x * 10000) : ℤ) : ℚ) / 10000

/-- Python `v or d` on an optional number: `None`, and `0` (falsy), fall
back to the default `d`. -/
def pyOrQ (v : Option ℚ) (d : ℚ) : ℚ :=
  match v with
  | some x => if x = 0 then d else x
  | none => d

/-! ## transform_sales.py, lines 106–115: sale-line financial derivation

`FinSrc` is the financial part of a source sale line as read by
`transform` via `l.get(...)` (absent key ↦ `none`); `FinOut` are the
eight numbers placed on the transformed line item.  The eight
definitions below mirror the eight sequential local assignments of
`transform_sales.py` lines 108–115 one for one. -/

structure FinSrc where
  quantity : Option ℚ
  unitPrice : Option ℚ
  discount : Option ℚ
  discountAmount : Option ℚ
  netAmount : Option ℚ
  taxRate : Option ℚ
  taxAmount : Option ℚ
  totalAmount : Option ℚ
deriving DecidableEq, Repr

structure FinOut where
  quantity : ℚ
  unitPrice : ℚ
  discount : ℚ
  discountAmount : ℚ
  netAmount : ℚ
  taxRate : ℚ
  taxAmount : ℚ
  totalAmount : ℚ
deriving DecidableEq, Repr

/-- `quantity = float(l.get('quantity') or 1)` -/
def lineQuantity (l : FinSrc) : ℚ := pyOrQ l.quantity 1

/-- `unit_price = float(l.get('unit_price') or 0)` -/
def lineUnitPrice (l : FinSrc) : ℚ := pyOrQ l.unitPrice 0

/-- `discount = float(l.get('discount') or 0)` -/
def lineDiscount (l : FinSrc) : ℚ := pyOrQ l.discount 0

/-- `discount_amount = float(l.get('discount_amount') or round(quantity * unit_price * discount / 100, 4))` -/
def lineDiscountAmount (l : FinSrc) : ℚ :=
  pyOrQ l.discountAmount (round4 (lineQuantity l * lineUnitPrice l * lineDiscount l / 100))

/-- `net_amount = float(l.get('net_amount') or round(quantity * unit_price - discount_amount, 4))` -/
def lineNetAmount (l : FinSrc) : ℚ :=
  pyOrQ l.netAmount (round4 (lineQuantity l * lineUnitPrice l - lineDiscountAmount l))

/-- `tax_rate = float(l.get('tax_rate') or 22)` -/
def lineTaxRate (l : FinSrc) : ℚ := pyOrQ l.taxRate 22

/-- `tax_amount = float(l.get('tax_amount') or round(net_amount * tax_rate / 100, 4))` -/
def lineTaxAmount (l : FinSrc) : ℚ :=
  pyOrQ l.taxAmount (round4 (lineNetAmount l * lineTaxRate l / 100))

/-- `total_amount = float(l.get('total_amount') or round(net_amount + tax_amount, 4))` -/
def lineTotalAmount (l : FinSrc) : ℚ :=
  pyOrQ l.totalAmount (round4 (lineNetAmount l + lineTaxAmount l))

/-- The eight financial values the transformer writes onto a sale line
item (`transform_sales.py` lines 125–132). -/
def deriveFin (l : FinSrc) : FinOut :=
  ⟨lineQuantity l, lineUnitPrice l, lineDiscount l, lineDiscountAmount l,
   lineNetAmount l, lineTaxRate l, lineTaxAmount l, lineTotalAmount l⟩

/-- A transformed line item, read back as transformer input: every
financial field is now present (supplied) with the derived value. -/
def finToSrc (o : FinOut) : FinSrc :=
  ⟨some o.quantity, some o.unitPrice, some o.discount, some o.discountAmount,
   some o.netAmount, some o.taxRate, some o.taxAmount, some o.totalAmount⟩

/-! Basic facts about `pyOrQ`. -/

theorem pyOrQ_none (d : ℚ) : pyOrQ none d = d := rfl

theorem pyOrQ_some (x d : ℚ) : pyOrQ (some x) d = if x = 0 then d else x := rfl

/-- Re-wrapping the result of a `pyOrQ` as a supplied value and applying
`pyOrQ` with the same default is the identity: either the result was a
nonzero supplied value (kept), or it equals the default (and if it is 0
the default it falls back to is that same value). -/
theorem pyOrQ_absorb (v : Option ℚ) (d : ℚ) :
    pyOrQ (some (pyOrQ v d)) d = pyOrQ v d := by
  cases v with
  | none =>
      simp only [pyOrQ]
      split <;> simp_all
  | some x =>
      simp only [pyOrQ]
      split <;> simp_all

theorem pyOrQ_ne_zero_of_default_ne_zero (v : Option ℚ) (d : ℚ) (hd : d ≠ 0) :
    pyOrQ v d ≠ 0 := by
  cases v with
  | none => simpa [pyOrQ] using hd
  | some x =>
      simp only [pyOrQ]
      split <;> simp_all

/-! Projection lemmas used to reason about re-derivation without
expanding the structure literals. -/

theorem finToSrc_quantity (o : FinOut) : (finToSrc o).quantity = some o.quantity := rfl

theorem finToSrc_unitPrice (o : FinOut) : (finToSrc o).unitPrice = some o.unitPrice := rfl

theorem finToSrc_discount (o : FinOut) : (finToSrc o).discount = some o.discount := rfl

theorem finToSrc_discountAmount (o : FinOut) :
    (finToSrc o).discountAmount = some o.discountAmount := rfl

theorem finToSrc_netAmount (o : FinOut) : (finToSrc o).netAmount = some o.netAmount := rfl

theorem finToSrc_taxRate (o : FinOut) : (finToSrc o).taxRate = some o.taxRate := rfl

theorem finToSrc_taxAmount (o : FinOut) : (finToSrc o).taxAmount = some o.taxAmount := rfl

theorem finToSrc_totalAmount (o : FinOut) :
    (finToSrc o).totalAmount = some o.totalAmount := rfl

theorem deriveFin_quantity (l : FinSrc) : (deriveFin l).quantity = lineQuantity l := rfl

theorem deriveFin_unitPrice (l : FinSrc) : (deriveFin l).unitPrice = lineUnitPrice l := rfl

theorem deriveFin_discount (l : FinSrc) : (deriveFin l).discount = lineDiscount l := rfl

theorem deriveFin_discountAmount (l : FinSrc) :
    (deriveFin l).discountAmount = lineDiscountAmount l := rfl

theorem deriveFin_netAmount (l : FinSrc) : (deriveFin l).netAmount = lineNetAmount l := rfl

theorem deriveFin_taxRate (l : FinSrc) : (deriveFin l).taxRate = lineTaxRate l := rfl

theorem deriveFin_taxAmount (l : FinSrc) : (deriveFin l).taxAmount = lineTaxAmount l := rfl

theorem deriveFin_totalAmount (l : FinSrc) :
    (deriveFin l).totalAmount = lineTotalAmount l := rfl

/-! ## Idempotence of the financial derivation -/

theorem lineQuantity_ne_zero (l : FinSrc) : lineQuantity l ≠ 0 :=
  pyOrQ_ne_zero_of_default_ne_zero _ _ (by norm_num)

theorem lineTaxRate_ne_zero (l : FinSrc) : lineTaxRate l ≠ 0 :=
  pyOrQ_ne_zero_of_default_ne_zero _ _ (by norm_num)

theorem lineQuantity_finToSrc (l : FinSrc) :
    lineQuantity (finToSrc (deriveFin l)) = lineQuantity l := by
  have h := lineQuantity_ne_zero l
  simp only [lineQuantity] at h
  simp only [lineQuantity, finToSrc_quantity, deriveFin_quantity, pyOrQ_some]
  rw [if_neg h]

theorem lineUnitPrice_finToSrc (l : FinSrc) :
    lineUnitPrice (finToSrc (deriveFin l)) = lineUnitPrice l := by
  simp only [lineUnitPrice, finToSrc_unitPrice, deriveFin_unitPrice]
  exact pyOrQ_absorb l.unitPrice 0

theorem lineDiscount_finToSrc (l : FinSrc) :
    lineDiscount (finToSrc (deriveFin l)) = lineDiscount l := by
  simp only [lineDiscount, finToSrc_discount, deriveFin_discount]
  exact pyOrQ_absorb l.discount 0

theorem lineTaxRate_finToSrc (l : FinSrc) :
    lineTaxRate (finToSrc (deriveFin l)) = lineTaxRate l := by
  simp only [lineTaxRate, finToSrc_taxRate, deriveFin_taxRate]
  exact pyOrQ_absorb l.taxRate 22

theorem lineDiscountAmount_finToSrc (l : FinSrc) :
    lineDiscountAmount (finToSrc (deriveFin l)) = lineDiscountAmount l := by
  simp only [lineDiscountAmount, finToSrc_discountAmount, deriveFin_discountAmount,
    lineQuantity_finToSrc, lineUnitPrice_finToSrc, lineDiscount_finToSrc]
  exact pyOrQ_absorb l.discountAmount _

theorem lineNetAmount_finToSrc (l : FinSrc) :
    lineNetAmount (finToSrc (deriveFin l)) = lineNetAmount l := by
  simp only [lineNetAmount, finToSrc_netAmount, deriveFin_netAmount,
    lineQuantity_finToSrc, lineUnitPrice_finToSrc, lineDiscountAmount_finToSrc]
  exact pyOrQ_absorb l.netAmount _

theorem lineTaxAmount_finToSrc (l : FinSrc) :
    lineTaxAmount (finToSrc (deriveFin l)) = lineTaxAmount l := by
  simp only [lineTaxAmount, finToSrc_taxAmount, deriveFin_taxAmount,
    lineNetAmount_finToSrc, lineTaxRate_finToSrc]
  exact pyOrQ_absorb l.taxAmount _

theorem lineTotalAmount_finToSrc (l : FinSrc) :
    lineTotalAmount (finToSrc (deriveFin l)) = lineTotalAmount l := by
  simp only [lineTotalAmount, finToSrc_totalAmount, deriveFin_totalAmount,
    lineNetAmount_finToSrc, lineTaxAmount_finToSrc]
  exact pyOrQ_absorb l.totalAmount _

/-- C2: the sale-line financial derivation of `transform_sales.py`
(lines 108–115) is idempotent: reapplying the derivation to a line item
it produced (all eight financial values now supplied) yields exactly the
same numbers — in particular the same `discountAmount`, `netAmount`,
`taxAmount` and `totalAmount`. -/
theorem derive_idempotent (l : FinSrc) :
    deriveFin (finToSrc (deriveFin l)) = deriveFin l := by
  simp only [deriveFin, FinOut.mk.injEq]
  exact ⟨lineQuantity_finToSrc l, lineUnitPrice_finToSrc l, lineDiscount_finToSrc l,
    lineDiscountAmount_finToSrc l, lineNetAmount_finToSrc l, lineTaxRate_finToSrc l,
    lineTaxAmount_finToSrc l, lineTotalAmount_finToSrc l⟩

/-! ## C1: when is the derivation formula applied?

The Python code guards each derivation with `or`, so a *supplied* value
of `0` (which is falsy) is overwritten by the derived value rather than
kept.  `c1CounterexampleLine` supplies `discount_amount = 0` explicitly;
the transformer replaces it with the derived `10`. -/

def c1CounterexampleLine : FinSrc :=
  { quantity := some 1, unitPrice := some 100, discount := some 10,
    discountAmount := some 0, netAmount := none, taxRate := none,
    taxAmount := none, totalAmount := none }

/-- `roundHalfEven` at an integer is that integer. -/
theorem roundHalfEven_intCast (n : ℤ) : roundHalfEven (n : ℚ) = n := by
  simp [roundHalfEven]

/-- `round4` at an integer is that integer. -/
theorem round4_intCast (n : ℤ) : round4 (n : ℚ) = n := by
  have h : ((n : ℚ) * 10000) = ((n * 10000 : ℤ) : ℚ) := by push_cast; ring
  rw [round4, h, roundHalfEven_intCast]
  push_cast
  field_simp

/-- C1 counterexample: the source supplied `discount_amount = 0`, but the
transformed line item carries `discountAmount = 10` (the derived value),
so a source-supplied financial field is not always kept unchanged. -/
theorem c1_supplied_zero_not_kept :
    c1CounterexampleLine.discountAmount = some 0 ∧
    (deriveFin c1CounterexampleLine).discountAmount = 10 ∧
    (deriveFin c1CounterexampleLine).discountAmount ≠ 0 := by
  have h10 : round4 (10 : ℚ) = 10 := by
    have := round4_intCast 10
    norm_num at this
    exact this
  have hval : (deriveFin c1CounterexampleLine).discountAmount = 10 := by
    simp only [deriveFin_discountAmount, c1CounterexampleLine, lineDiscountAmount,
      lineQuantity, lineUnitPrice, lineDiscount, pyOrQ]
    norm_num [h10]
  exact ⟨rfl, hval, by rw [hval]; norm_num⟩

/-- C1 (amended): for every sale line, each of the four financial fields
is derived by its formula exactly when the source value is absent, null
or zero (Python falsy), with the tax rate defaulting to 22 when absent
or zero; a source-supplied *nonzero* value is kept unchanged.  The
formulas are stated over the transformed line's own quantity, unit
price, discount, and previously derived fields, with 4-decimal
round-half-to-even rounding. -/
theorem c1_financial_derivation (l : FinSrc) :
    ((l.discountAmount = none ∨ l.discountAmount = some 0) →
      (deriveFin l).discountAmount =
        round4 ((deriveFin l).quantity * (deriveFin l).unitPrice * (deriveFin l).discount / 100)) ∧
    (∀ x : ℚ, l.discountAmount = some x → x ≠ 0 → (deriveFin l).discountAmount = x) ∧
    ((l.netAmount = none ∨ l.netAmount = some 0) →
      (deriveFin l).netAmount =
        round4 ((deriveFin l).quantity * (deriveFin l).unitPrice - (deriveFin l).discountAmount)) ∧
    (∀ x : ℚ, l.netAmount = some x → x ≠ 0 → (deriveFin l).netAmount = x) ∧
    ((l.taxRate = none ∨ l.taxRate = some 0) → (deriveFin l).taxRate = 22) ∧
    (∀ x : ℚ, l.taxRate = some x → x ≠ 0 → (deriveFin l).taxRate = x) ∧
    ((l.taxAmount = none ∨ l.taxAmount = some 0) →
      (deriveFin l).taxAmount =
        round4 ((deriveFin l).netAmount * (deriveFin l).taxRate / 100)) ∧
    (∀ x : ℚ, l.taxAmount = some x → x ≠ 0 → (deriveFin l).taxAmount = x) ∧
    ((l.totalAmount = none ∨ l.totalAmount = some 0) →
      (deriveFin l).totalAmount =
        round4 ((deriveFin l).netAmount + (deriveFin l).taxAmount)) ∧
    (∀ x : ℚ, l.totalAmount = some x → x ≠ 0 → (deriveFin l).totalAmount = x) := by
  refine ⟨?_, ?_, ?_, ?_, ?_, ?_, ?_, ?_, ?_, ?_⟩
  · rintro (h | h) <;>
      simp [deriveFin_discountAmount, deriveFin_quantity, deriveFin_unitPrice,
        deriveFin_discount, lineDiscountAmount, h, pyOrQ]
  · rintro x h hx
    simp [deriveFin_discountAmount, lineDiscountAmount, h, pyOrQ, hx]
  · rintro (h | h) <;>
      simp [deriveFin_netAmount, deriveFin_quantity, deriveFin_unitPrice,
        deriveFin_discountAmount, lineNetAmount, h, pyOrQ]
  · rintro x h hx
    simp [deriveFin_netAmount, lineNetAmount, h, pyOrQ, hx]
  · rintro (h | h) <;> simp [deriveFin_taxRate, lineTaxRate, h, pyOrQ]
  · rintro x h hx
    simp [deriveFin_taxRate, lineTaxRate, h, pyOrQ, hx]
  · rintro (h | h) <;>
      simp [deriveFin_taxAmount, deriveFin_netAmount, deriveFin_taxRate,
        lineTaxAmount, h, pyOrQ]
  · rintro x h hx
    simp [deriveFin_taxAmount, lineTaxAmount, h, pyOrQ, hx]
  · rintro (h | h) <;>
      simp [deriveFin_totalAmount, deriveFin_netAmount, deriveFin_taxAmount,
        lineTotalAmount, h, pyOrQ]
  · rintro x h hx
    simp [deriveFin_totalAmount, lineTotalAmount, h, pyOrQ, hx]

/-- Witness for `c1_financial_derivation`: a line with no financial
fields supplied (each formula fires, tax rate defaults to 22), and a
line with every financial field supplied nonzero (each value kept). -/
theorem c1_financial_derivation_witness :
    (deriveFin ⟨some 2, some 10, none, none, none, none, none, none⟩).discountAmount =
      round4 ((deriveFin ⟨some 2, some 10, none, none, none, none, none, none⟩).quantity *
        (deriveFin ⟨some 2, some 10, none, none, none, none, none, none⟩).unitPrice *
        (deriveFin ⟨some 2, some 10, none, none, none, none, none, none⟩).discount / 100) ∧
    (deriveFin ⟨some 2, some 10, some 5, some 1, some 2, some 7, some 3, some 4⟩).discountAmount = 1 ∧
    (deriveFin ⟨some 2, some 10, none, none, none, none, none, none⟩).netAmount =
      round4 ((deriveFin ⟨some 2, some 10, none, none, none, none, none, none⟩).quantity *
        (deriveFin ⟨some 2, some 10, none, none, none, none, none, none⟩).unitPrice -
        (deriveFin ⟨some 2, some 10, none, none, none, none, none, none⟩).discountAmount) ∧
    (deriveFin ⟨some 2, some 10, some 5, some 1, some 2, some 7, some 3, some 4⟩).netAmount = 2 ∧
    (deriveFin ⟨some 2, some 10, none, none, none, none, none, none⟩).taxRate = 22 ∧
    (deriveFin ⟨some 2, some 10, some 5, some 1, some 2, some 7, some 3, some 4⟩).taxRate = 7 ∧
    (deriveFin ⟨some 2, some 10, none, none, none, none, none, none⟩).taxAmount =
      round4 ((deriveFin ⟨some 2, some 10, none, none, none, none, none, none⟩).netAmount *
        (deriveFin ⟨some 2, some 10, none, none, none, none, none, none⟩).taxRate / 100) ∧
    (deriveFin ⟨some 2, some 10, some 5, some 1, some 2, some 7, some 3, some 4⟩).taxAmount = 3 ∧
    (deriveFin ⟨some 2, some 10, none, none, none, none, none, none⟩).totalAmount =
      round4 ((deriveFin ⟨some 2, some 10, none, none, none, none, none, none⟩).netAmount +
        (deriveFin ⟨some 2, some 10, none, none, none, none, none, none⟩).taxAmount) ∧
    (deriveFin ⟨some 2, some 10, some 5, some 1, some 2, some 7, some 3, some 4⟩).totalAmount = 4 := by
  have hA := c1_financial_derivation ⟨some 2, some 10, none, none, none, none, none, none⟩
  have hB := c1_financial_derivation ⟨some 2, some 10, some 5, some 1, some 2, some 7, some 3, some 4⟩
  exact ⟨hA.1 (Or.inl rfl),
    hB.2.1 1 rfl (by norm_num),
    hA.2.2.1 (Or.inl rfl),
    hB.2.2.2.1 2 rfl (by norm_num),
    hA.2.2.2.2.1 (Or.inl rfl),
    hB.2.2.2.2.2.1 7 rfl (by norm_num),
    hA.2.2.2.2.2.2.1 (Or.inl rfl),
    hB.2.2.2.2.2.2.2.1 3 rfl (by norm_num),
    hA.2.2.2.2.2.2.2.2.1 (Or.inl rfl),
    hB.2.2.2.2.2.2.2.2.2 4 rfl (by norm_num)⟩

/-! ## JSON values and Python dictionaries

`JValue` models the JSON scalars flowing through the migration files;
`Dict` models a Python dict as an association list in insertion order
(keys are unique in every dict the scripts build).  `truthy` models
Python truthiness for these values; `pyStr` models `str(v)` (the
rendering of numbers is a modelling choice — no verified property
depends on it). -/

inductive JValue where
  | jstr (s : String)
  | jnum (q : ℚ)
  | jbool (b : Bool)
  | jnull
deriving DecidableEq, Repr

abbrev Dict := List (String × JValue)

/-- First-match key lookup, i.e. `d[k]` / `d.get(k)`. -/
def dlookup (d : Dict) (k : String) : Option JValue :=
  match d with
  | [] => none
  | (k', v) :: rest => if k' = k then some v else dlookup rest k

/-- Python truthiness of a JSON scalar: `""`, `0`, `False`, `None` are
falsy. -/
def truthy : JValue → Bool
  | .jstr s => !(s = "")
  | .jnum q => !(q = 0)
  | .jbool b => b
  | .jnull => false

/-- Rendering of a rational in messages (`str` of a Python number);
modelling choice, no verified property depends on the digits. -/
def qRender (q : ℚ) : String :=
  toString q.num ++ (if q.den = 1 then "" else "/" ++ toString q.den)

/-- `str(v)` for a JSON scalar. -/
def pyStr : JValue → String
  | .jstr s => s
  | .jnum q => qRender q
  | .jbool b => if b then "True" else "False"
  | .jnull => "None"

/-- `v or d` on an optional JSON value (used for fields copied with a
non-null default). -/
def pyOrJ (v : Option JValue) (d : JValue) : JValue :=
  match v with
  | some x => if truthy x then x else d
  | none => d

/-- `s.get(k) or None`: the value when present and truthy, else `None`
(the entry is later dropped by the `is not None` filter). -/
def pyOrNullJ (v : Option JValue) : JValue :=
  match v with
  | some x => if truthy x then x else .jnull
  | none => .jnull

/-- `v or d` on an optional string (empty string is falsy). -/
def pyOrS (v : Option String) (d : String) : String :=
  match v with
  | some x => if x = "" then d else x
  | none => d

/-- `bool(v or False)` on an optional boolean. -/
def pyOrB (v : Option Bool) (d : Bool) : Bool :=
  match v with
  | some x => if x then x else d
  | none => d

/-- `str.startswith(pre)` modelled on character lists. -/
def pyStartsWithL : List Char → List Char → Bool
  | [], _ => true
  | _ :: _, [] => false
  | a :: as, b :: bs => a = b && pyStartsWithL as bs

/-- `s.startswith(pre)`. -/
def pyStartsWith (s pre : String) : Bool :=
  pyStartsWithL pre.data s.data

theorem pyStartsWithL_append (pre rest : List Char) :
    pyStartsWithL pre (pre ++ rest) = true := by
  induction pre with
  | nil => rfl
  | cons a as ih => simp [pyStartsWithL, ih]

theorem pyStartsWith_append (pre rest : String) :
    pyStartsWith (pre ++ rest) pre = true := by
  have hd : (pre ++ rest).data = pre.data ++ rest.data := String.data_append pre rest
  rw [pyStartsWith, hd]
  exact pyStartsWithL_append pre.data rest.data

theorem append_ne_empty_left (s t : String) (hs : s ≠ "") : s ++ t ≠ "" := by
  intro h
  have h2 : s.data ++ t.data = [] := by
    have h3 := congrArg String.data h
    rwa [String.data_append] at h3
  exact hs (String.ext (List.append_eq_nil.mp h2).1)

/-! ## Python string helpers (structural versions of `.lower()` and `.strip()`) -/

/-- `s.lower()`. -/
def pyLower (s : String) : String := ⟨s.data.map Char.toLower⟩

/-- `s.strip()`: drop leading and trailing whitespace. -/
def pyStrip (s : String) : String :=
  ⟨((s.data.dropWhile Char.isWhitespace).reverse.dropWhile Char.isWhitespace).reverse⟩

/-! ## Status normalization

`mapStatusT` embeds `_map_status` from `transform_sales.py` (lines
13–24): a case-insensitive dict lookup with default `'confirmed'`,
guarded by a truthiness test on the raw value.  `mapSaleStatus` and
`mapBuyerStatus` embed `map_sale_status` / `map_buyer_status` from
`migrate_to_dynamodb.py` (lines 91–102) with the module-level
`STATUS_MAP` (lines 48–56); the sale default there is `'draft'`.
`tlookup` is `dict.get` on a string-to-string table. -/

def tlookup (tbl : List (String × String)) (k : String) : Option String :=
  match tbl with
  | [] => none
  | (k', v) :: rest => if k' = k then some v else tlookup rest k

theorem tlookup_mem (tbl : List (String × String)) (k v : String)
    (h : tlookup tbl k = some v) : v ∈ tbl.map Prod.snd := by
  induction tbl with
  | nil => simp [tlookup] at h
  | cons p rest ih =>
      obtain ⟨k', v'⟩ := p
      simp only [tlookup] at h
      by_cases hk : k' = k
      · rw [if_pos hk] at h
        simp [Option.some.injEq] at h
        simp [h]
      · rw [if_neg hk] at h
        simpa using Or.inr (ih h)

theorem tlookup_eq_none (tbl : List (String × String)) (k : String)
    (h : k ∉ tbl.map Prod.fst) : tlookup tbl k = none := by
  induction tbl with
  | nil => rfl
  | cons p rest ih =>
      obtain ⟨k', v'⟩ := p
      simp only [List.map_cons, List.mem_cons] at h
      push_neg at h
      simp only [tlookup]
      rw [if_neg (Ne.symm h.1)]
      exact ih h.2

/-- The `mapping` dict of `_map_status` (`transform_sales.py` lines 15–21). -/
def statusTableT : List (String × String) :=
  [("confirmed", "confirmed"), ("confermato", "confirmed"), ("conf", "confirmed"),
   ("invoiced", "invoiced"), ("fatturato", "invoiced"),
   ("paid", "paid"), ("pagato", "paid"),
   ("cancelled", "cancelled"), ("annullato", "cancelled"), ("annullata", "cancelled"),
   ("draft", "draft"), ("bozza", "draft")]

/-- `STATUS_MAP` of `migrate_to_dynamodb.py` (lines 48–56). -/
def STATUS_MAP : List (String × String) :=
  [("new", "draft"), ("to verify", "draft"), ("proforma", "draft"),
   ("ready", "confirmed"), ("sent", "invoiced"), ("paid", "paid"),
   ("deleted", "cancelled")]

def targetStatuses : List String := ["draft", "confirmed", "invoiced", "paid", "cancelled"]

/-- `_map_status` of `transform_sales.py`. -/
def mapStatusT (raw : Option String) : String :=
  match raw with
  | none => "confirmed"
  | some s =>
    if s = "" then "confirmed"
    else (tlookup statusTableT (pyLower s)).getD "confirmed"

/-- `map_sale_status` of `migrate_to_dynamodb.py`. -/
def mapSaleStatus (raw : Option String) : String :=
  match raw with
  | none => "draft"
  | some s => (tlookup STATUS_MAP (pyStrip (pyLower s))).getD "draft"

/-- `map_buyer_status` of `migrate_to_dynamodb.py`. -/
def mapBuyerStatus (raw : Option String) : String :=
  match raw with
  | none => "active"
  | some s => if pyStrip (pyLower s) = "online" then "active" else "inactive"

/-- C8 counterexample: the standalone migration script's sale-status
mapping sends an unrecognized token to `'draft'`, not to the claimed
sales default `'confirmed'`. -/
theorem c8_unrecognized_maps_to_draft :
    mapSaleStatus (some "unknown-token") = "draft" ∧
    mapSaleStatus (some "unknown-token") ≠ "confirmed" := by
  constructor
  · decide
  · decide

/-- C8 (amended): both sale-status mappings are total, deterministic up
to case, and land in the closed target set {draft, confirmed, invoiced,
paid, cancelled}; unrecognized or absent tokens fall back to the
*per-implementation* default — `'confirmed'` in the sales transformer's
`_map_status`, but `'draft'` in `migrate_to_dynamodb.py`'s
`map_sale_status`; buyer/producer status in `migrate_to_dynamodb.py` is
`'active'` exactly on an `'online'`-equivalent value, with `'active'`
for an absent value. -/
theorem c8_status_normalization :
    (∀ raw, mapStatusT raw ∈ targetStatuses) ∧
    mapStatusT none = "confirmed" ∧
    (∀ s, s ≠ "" → pyLower s ∉ statusTableT.map Prod.fst → mapStatusT (some s) = "confirmed") ∧
    (∀ s t, s ≠ "" → t ≠ "" → pyLower s = pyLower t →
      mapStatusT (some s) = mapStatusT (some t)) ∧
    (∀ raw, mapSaleStatus raw ∈ targetStatuses) ∧
    mapSaleStatus none = "draft" ∧
    (∀ s, pyStrip (pyLower s) ∉ STATUS_MAP.map Prod.fst → mapSaleStatus (some s) = "draft") ∧
    (∀ s t, pyStrip (pyLower s) = pyStrip (pyLower t) →
      mapSaleStatus (some s) = mapSaleStatus (some t)) ∧
    mapBuyerStatus none = "active" ∧
    (∀ s, (mapBuyerStatus (some s) = "active" ↔ pyStrip (pyLower s) = "online") ∧
      mapBuyerStatus (some s) ∈ ["active", "inactive"]) := by
  refine ⟨?_, rfl, ?_, ?_, ?_, rfl, ?_, ?_, rfl, ?_⟩
  · intro raw
    cases raw with
    | none => simp [mapStatusT, targetStatuses]
    | some s =>
      simp only [mapStatusT]
      by_cases hs : s = ""
      · simp [hs, targetStatuses]
      · rw [if_neg hs]
        cases hl : tlookup statusTableT (pyLower s) with
        | none => simp [targetStatuses]
        | some v =>
            have hv := tlookup_mem _ _ _ hl
            simp only [Option.getD_some]
            fin_cases hv <;> decide
  · intro s hs hmem
    simp [mapStatusT, hs, tlookup_eq_none _ _ hmem]
  · intro s t hs ht h
    simp only [mapStatusT, if_neg hs, if_neg ht, h]
  · intro raw
    cases raw with
    | none => simp [mapSaleStatus, targetStatuses]
    | some s =>
      simp only [mapSaleStatus]
      cases hl : tlookup STATUS_MAP (pyStrip (pyLower s)) with
      | none => simp [targetStatuses]
      | some v =>
          have hv := tlookup_mem _ _ _ hl
          simp only [Option.getD_some]
          fin_cases hv <;> decide
  · intro s hmem
    simp [mapSaleStatus, tlookup_eq_none _ _ hmem]
  · intro s t h
    simp only [mapSaleStatus, h]
  · intro s
    constructor
    · simp only [mapBuyerStatus]
      split_ifs with h <;> simp [h]
    · simp only [mapBuyerStatus]
      split_ifs <;> simp

/-- Witness for `c8_status_normalization`: concrete applications of each
guarded conjunct. -/
theorem c8_status_normalization_witness :
    mapStatusT (some "zzz") = "confirmed" ∧
    mapStatusT (some "PAID") = mapStatusT (some "paid") ∧
    mapSaleStatus (some "zzz") = "draft" ∧
    mapSaleStatus (some "SENT") = mapSaleStatus (some "sent") := by
  refine ⟨?_, ?_, ?_, ?_⟩
  · exact c8_status_normalization.2.2.1 "zzz" (by decide) (by decide)
  · exact c8_status_normalization.2.2.2.1 "PAID" "paid" (by decide) (by decide) (by decide)
  · exact c8_status_normalization.2.2.2.2.2.2.1 "zzz" (by decide)
  · exact c8_status_normalization.2.2.2.2.2.2.2.1 "SENT" "sent" (by decide)

/-! ## Loader batching (load_buyers.py lines 37–45, load_sales.py lines 56–61)

The loaders write items with
`chunk_size = min(batch_size, 25)` and
`for i in range(0, len(items), chunk_size): chunk = items[i:i+chunk_size]`.
`chunksOf c items` is that sequence of slices (for `c > 0`);
`loadChunks` adds the `range` guard: Python's `range` raises
`ValueError` when the step is 0 (or negative `chunk_size ≤ 0`). -/

def chunksOf : Nat → List α → List (List α)
  | _, [] => []
  | 0, _ :: _ => []
  | Nat.succ c, x :: xs =>
      ((x :: xs).take (c + 1)) :: chunksOf (c + 1) ((x :: xs).drop (c + 1))
termination_by c l => l.length
decreasing_by
  simp only [List.length_drop, List.length_cons]
  omega

/-- The chunk sizes produced by slicing a list of length `n` with step
`c` (same recursion on the length alone). -/
def chunkLens : Nat → Nat → List Nat
  | _, 0 => []
  | 0, Nat.succ _ => []
  | Nat.succ c, Nat.succ n => min (c + 1) (n + 1) :: chunkLens (c + 1) (n + 1 - (c + 1))
termination_by c n => n
decreasing_by omega

/-- The loader's batching: `chunk_size = min(batch_size, 25)`; a
non-positive step makes Python's `range` raise. -/
def loadChunks (batchSize : Nat) (items : List α) : Except String (List (List α)) :=
  let chunkSize := min batchSize 25
  if chunkSize = 0 then .error "ValueError: range() arg 3 must not be zero"
  else .ok (chunksOf chunkSize items)

theorem chunksOf_flatten (c : Nat) (l : List α) (hc : 0 < c) :
    (chunksOf c l).flatten = l := by
  induction c, l using chunksOf.induct with
  | case1 c => simp [chunksOf]
  | case2 x xs => omega
  | case3 c x xs ih =>
      rw [chunksOf]
      simp only [List.flatten_cons, ih (by omega)]
      exact List.take_append_drop (c + 1) (x :: xs)

theorem chunksOf_length_le (c : Nat) (l : List α) :
    ∀ ch ∈ chunksOf c l, ch.length ≤ c ∧ ch ≠ [] := by
  induction c, l using chunksOf.induct with
  | case1 c => simp [chunksOf]
  | case2 x xs => simp [chunksOf]
  | case3 c x xs ih =>
      rw [chunksOf]
      intro ch hch
      rcases List.mem_cons.mp hch with h | h
      · subst h
        constructor
        · simpa using List.length_take_le (c + 1) (x :: xs)
        · simp
      · exact ih ch h

theorem chunksOf_dropLast_length (c : Nat) (l : List α) :
    ∀ ch ∈ (chunksOf c l).dropLast, ch.length = c := by
  induction c, l using chunksOf.induct with
  | case1 c => simp [chunksOf]
  | case2 x xs => simp [chunksOf]
  | case3 c x xs ih =>
      rw [chunksOf]
      intro ch hch
      cases hrest : chunksOf (c + 1) ((x :: xs).drop (c + 1)) with
      | nil => rw [hrest] at hch; simp at hch
      | cons y ys =>
          rw [hrest] at hch
          rw [List.dropLast_cons_of_ne_nil (by simp)] at hch
          rcases List.mem_cons.mp hch with h | h
          · subst h
            have hne : (x :: xs).drop (c + 1) ≠ [] := by
              intro hnil
              rw [hnil] at hrest
              simp [chunksOf] at hrest
            have hlen : c + 1 ≤ (x :: xs).length := by
              by_contra hlt
              push_neg at hlt
              exact hne (List.drop_eq_nil_of_le (by omega))
            rw [List.length_take]
            simp only [List.length_cons] at hlen ⊢
            omega
          · have := ih
            rw [hrest] at this
            exact this ch h

theorem chunksOf_map_length (c : Nat) (l : List α) (hc : 0 < c) :
    (chunksOf c l).map List.length = chunkLens c l.length := by
  induction c, l using chunksOf.induct with
  | case1 c => simp [chunksOf, chunkLens]
  | case2 x xs => omega
  | case3 c x xs ih =>
      rw [chunksOf]
      simp only [List.map_cons, ih (by omega), List.length_take, List.length_drop]
      have hlen : (x :: xs).length = xs.length + 1 := by simp
      rw [hlen, chunkLens]

/-- C7: for every item sequence and positive configured batch size `b`,
the loader writes the items as consecutive chunks of size
`min b 25` — every item appears exactly once in input order
(concatenating the chunks gives back the input), every chunk except
possibly the last has exactly `min b 25` items, every chunk is nonempty
with at most `min b 25` items, and 53 items with batch size 25 produce
exactly the chunk sizes `[25, 25, 3]`. -/
theorem c7_loader_chunking (l : List α) (b : Nat) (hb : 1 ≤ b) :
    loadChunks b l = .ok (chunksOf (min b 25) l) ∧
    (chunksOf (min b 25) l).flatten = l ∧
    (∀ ch ∈ (chunksOf (min b 25) l).dropLast, ch.length = min b 25) ∧
    (∀ ch ∈ chunksOf (min b 25) l, ch.length ≤ min b 25 ∧ ch ≠ []) ∧
    (l.length = 53 → b = 25 → (chunksOf (min b 25) l).map List.length = [25, 25, 3]) := by
  have hc : 0 < min b 25 := by omega
  refine ⟨?_, chunksOf_flatten _ _ hc, chunksOf_dropLast_length _ _,
    chunksOf_length_le _ _, ?_⟩
  · simp only [loadChunks]
    rw [if_neg (by omega)]
  · intro hl hb25
    subst hb25
    rw [chunksOf_map_length _ _ hc, hl]
    norm_num
    simp [chunkLens]

/-- Witness for `c7_loader_chunking`: 53 items, batch size 25. -/
theorem c7_loader_chunking_witness :
    loadChunks 25 (List.replicate 53 (0 : ℕ)) =
      .ok (chunksOf (min 25 25) (List.replicate 53 (0 : ℕ))) ∧
    (chunksOf (min 25 25) (List.replicate 53 (0 : ℕ))).map List.length = [25, 25, 3] := by
  have h := c7_loader_chunking (List.replicate 53 (0 : ℕ)) 25 (by norm_num)
  exact ⟨h.1, h.2.2.2.2 (by simp) rfl⟩

/-! ## Migration orchestrator (migrate.py)

`Phase` is the four-phase pipeline.  `resumePlan` embeds
`MigrationOrchestrator.resume` (lines 246–270): with no checkpoint the
full migration runs (`run_full`, lines 202–221: extract, transform,
validate, load in order); otherwise every phase without a checkpoint
entry runs, in pipeline order (the `for phase in phases: if phase not in
completed_phases:` loop has no break).  A checkpoint's phase keys are
modelled as the list of phases present in the loaded checkpoint dict. -/

theorem head?_filter_eq_find? (p : α → Bool) (l : List α) :
    (l.filter p).head? = l.find? p := by
  induction l with
  | nil => rfl
  | cons a as ih =>
      simp only [List.filter, List.find?]
      cases p a with
      | true => rfl
      | false => exact ih

inductive Phase where
  | extract
  | transform
  | validate
  | load
deriving DecidableEq, Repr

def phaseOrder : List Phase := [.extract, .transform, .validate, .load]

/-- The phases `resume()` executes, in order, given the phases that have
checkpoint entries (`completed_phases = list(self.checkpoint.keys())`). -/
def resumePlan (cp : List Phase) : List Phase :=
  if cp = [] then phaseOrder
  else phaseOrder.filter (fun p => ¬ p ∈ cp)

/-- C3: resume with `extract` and `transform` checkpointed (and
`validate`, `load` not) executes exactly `validate` then `load`; with no
checkpoint the full migration runs from `extract`; and in general the
first phase without a checkpoint entry is the next phase executed. -/
theorem c3_resume_from_checkpoint :
    (∀ cp : List Phase, .extract ∈ cp → .transform ∈ cp → .validate ∉ cp → .load ∉ cp →
      resumePlan cp = [.validate, .load]) ∧
    resumePlan [] = [.extract, .transform, .validate, .load] ∧
    (∀ cp : List Phase, (resumePlan cp).head? = phaseOrder.find? (fun p => ¬ p ∈ cp)) := by
  refine ⟨?_, rfl, ?_⟩
  · intro cp h1 h2 h3 h4
    have hne : cp ≠ [] := by
      intro h
      rw [h] at h1
      exact absurd h1 (List.not_mem_nil _)
    rw [resumePlan, if_neg hne]
    simp [phaseOrder, List.filter, h1, h2, h3, h4]
  · intro cp
    by_cases hne : cp = []
    · subst hne
      rfl
    · rw [resumePlan, if_neg hne]
      exact head?_filter_eq_find? _ _

/-- Witness for `c3_resume_from_checkpoint`: the concrete checkpoint
with `extract` and `transform` complete. -/
theorem c3_resume_from_checkpoint_witness :
    resumePlan [.extract, .transform] = [.validate, .load] :=
  c3_resume_from_checkpoint.1 [.extract, .transform]
    (by decide) (by decide) (by decide) (by decide)

/-! ## Checkpointing (migrate.py lines 72–85, 98–120)

`saveCheckpoint` embeds `save_checkpoint`: it overwrites the entry for
the `(phase, entity)` pair and persists the whole checkpoint to disk.
`runPhaseEntities` embeds the per-entity loop of `run_extract` (and the
structurally identical loops of `run_transform` / `run_load`): each
entity is processed by `runEnt` (the `extract_*.extract(...)` call,
which returns a count or raises); the checkpoint is saved *after* the
call returns.  The function returns the final outcome together with the
trace of every checkpoint state persisted to disk during the run. -/

abbrev Checkpoint := List (Phase × String × Nat)

def saveCheckpoint (cp : Checkpoint) (ph : Phase) (ent : String) (n : Nat) : Checkpoint :=
  cp.filter (fun e => ¬ (e.1 = ph ∧ e.2.1 = ent)) ++ [(ph, ent, n)]

def runPhaseEntities (ph : Phase) (runEnt : String → Except String Nat) :
    List String → Checkpoint → Except String Checkpoint × List Checkpoint
  | [], cp => (.ok cp, [])
  | e :: rest, cp =>
    match runEnt e with
    | .error msg => (.error msg, [])
    | .ok n =>
        let cp' := saveCheckpoint cp ph e n
        let (r, tr) := runPhaseEntities ph runEnt rest cp'
        (r, cp' :: tr)

theorem saveCheckpoint_mem (cp : Checkpoint) (ph : Phase) (ent : String) (n : Nat)
    (p : Phase) (e : String) (m : Nat) (h : (p, e, m) ∈ saveCheckpoint cp ph ent n) :
    (p, e, m) ∈ cp ∨ (p = ph ∧ e = ent ∧ m = n) := by
  rcases List.mem_append.mp h with h1 | h1
  · exact Or.inl (List.mem_of_mem_filter h1)
  · simp only [List.mem_singleton, Prod.mk.injEq] at h1
    exact Or.inr ⟨h1.1, h1.2.1, h1.2.2⟩

/-- C4: a checkpoint entry for `(phase, entity)` is persisted only after
that phase fully succeeded for that entity.  For every persisted
checkpoint state reached during a phase run (and for the final state),
every entry of the run's phase either predates the run or records an
entity whose processing call returned successfully with exactly the
recorded progress count. -/
theorem c4_checkpoint_only_after_success (ph : Phase) (runEnt : String → Except String Nat)
    (ents : List String) (cp0 : Checkpoint)
    (h0 : ∀ e n, (ph, e, n) ∈ cp0 → runEnt e = .ok n) :
    (∀ state ∈ (runPhaseEntities ph runEnt ents cp0).2,
      ∀ e n, (ph, e, n) ∈ state → runEnt e = .ok n) ∧
    (∀ cpFinal, (runPhaseEntities ph runEnt ents cp0).1 = .ok cpFinal →
      ∀ e n, (ph, e, n) ∈ cpFinal → runEnt e = .ok n) := by
  induction ents generalizing cp0 with
  | nil =>
      refine ⟨?_, ?_⟩
      · intro state hstate
        simp [runPhaseEntities] at hstate
      · intro cpFinal hfin
        simp only [runPhaseEntities] at hfin
        cases hfin
        exact h0
  | cons e rest ih =>
      cases hrun : runEnt e with
      | error msg =>
          refine ⟨?_, ?_⟩
          · intro state hstate
            simp [runPhaseEntities, hrun] at hstate
          · intro cpFinal hfin
            simp [runPhaseEntities, hrun] at hfin
      | ok n =>
          have h0' : ∀ e' n', (ph, e', n') ∈ saveCheckpoint cp0 ph e n →
              runEnt e' = .ok n' := by
            intro e' n' hmem
            rcases saveCheckpoint_mem _ _ _ _ _ _ _ hmem with h | h
            · exact h0 e' n' h
            · rw [h.2.1, h.2.2]
              exact hrun
          have ihx := ih (saveCheckpoint cp0 ph e n) h0'
          refine ⟨?_, ?_⟩
          · intro state hstate
            simp only [runPhaseEntities, hrun] at hstate
            rcases List.mem_cons.mp hstate with h | h
            · subst h
              exact h0'
            · exact ihx.1 state h
          · intro cpFinal hfin
            simp only [runPhaseEntities, hrun] at hfin
            exact ihx.2 cpFinal hfin

/-- Witness for `c4_checkpoint_only_after_success`: a run over buyers,
producers and sales in which the sales extraction fails; the first
persisted state records the buyers extraction, whose call did succeed
with the recorded count. -/
theorem c4_checkpoint_only_after_success_witness :
    (if "buyers" = "sales" then (.error "boom" : Except String Nat) else .ok 3) = .ok 3 :=
  (c4_checkpoint_only_after_success .extract
      (fun e => if e = "sales" then .error "boom" else .ok 3)
      ["buyers", "producers", "sales"] []
      (fun e n h => absurd h (List.not_mem_nil _))).1
    [(.extract, "buyers", 3)] (by decide) "buyers" 3 (by decide)

/-! ## Canonical extracted sale (extract_sales.py lines 62–147)

`SrcSale` models one entry of `data/extracted/sales.json` as consumed by
the transformer: the snake_case fields extract writes, typed by what the
extractor produces (`float(...)` fields as `Option ℚ` — `none` models a
JSON `null` / absent key; free-form passthrough fields as
`Option JValue`; ids and timestamps as strings).  Sale lines are carried
by their financial part (`FinSrc`), the only part any verified property
reads. -/

structure SrcSale where
  firstId : Option String
  saleNumber : Option Int
  regNumber : Option JValue
  docType : Option JValue
  saleDate : Option JValue
  buyerId : Option JValue
  buyerName : Option JValue
  producerId : Option JValue
  producerName : Option JValue
  subtotal : Option ℚ
  taxAmount : Option ℚ
  total : Option ℚ
  paymentMethod : Option JValue
  paymentTerms : Option JValue
  deliveryMethod : Option JValue
  deliveryDate : Option JValue
  notes : Option JValue
  internalNotes : Option JValue
  referenceNumber : Option JValue
  poNumber : Option JValue
  poDate : Option JValue
  printedNote : Option JValue
  package : Option JValue
  deliveryNote : Option JValue
  dnNumber : Option JValue
  dnDate : Option JValue
  dnNumber2 : Option JValue
  dnDate2 : Option JValue
  dnNumber3 : Option JValue
  dnDate3 : Option JValue
  paCupNumber : Option JValue
  paCigNumber : Option JValue
  paymentDate : Option JValue
  paymentNote : Option JValue
  bank : Option JValue
  coBankDescription : Option JValue
  coBankIban : Option JValue
  ivaPercentage : Option ℚ
  vatOff : Option JValue
  currency : Option JValue
  status : Option String
  invoiceGenerated : Option Bool
  invoiceNumber : Option JValue
  numberT : Option JValue
  year : Option JValue
  createdAt : Option String
  updatedAt : Option String
  lines : List FinSrc
deriving Repr

/-- `int(s.get('sale_number') or 0)`. -/
def pyOrZ (v : Option Int) : Int :=
  match v with
  | some x => if x = 0 then 0 else x
  | none => 0

/-- `v is not None`. -/
def notNull : JValue → Bool
  | .jnull => false
  | _ => true

/-- The sale metadata item of `transform_sales.py` lines 46–102 before
the `None` filter: the literal dict in insertion order. -/
def saleItemEntries (now : String) (saleId : String) (s : SrcSale) : Dict :=
  let createdAt := pyOrS s.createdAt now
  let updatedAt := pyOrS s.updatedAt now
  [("PK", .jstr ("SALE#" ++ saleId)),
     ("SK", .jstr "METADATA"),
     ("saleId", .jstr saleId),
     ("saleNumber", .jnum ((pyOrZ s.saleNumber : ℤ) : ℚ)),
     ("regNumber", pyOrNullJ s.regNumber),
     ("docType", pyOrJ s.docType (.jstr "invoice")),
     ("saleDate", pyOrJ s.saleDate (.jstr (now.take 10))),
     ("buyerId", pyOrJ s.buyerId (.jstr "")),
     ("buyerName", pyOrJ s.buyerName (.jstr "")),
     ("producerId", pyOrJ s.producerId (.jstr "")),
     ("producerName", pyOrJ s.producerName (.jstr "")),
     ("subtotal", .jnum (pyOrQ s.subtotal 0)),
     ("taxAmount", .jnum (pyOrQ s.taxAmount 0)),
     ("total", .jnum (pyOrQ s.total 0)),
     ("paymentMethod", pyOrNullJ s.paymentMethod),
     ("paymentTerms", pyOrNullJ s.paymentTerms),
     ("deliveryMethod", pyOrNullJ s.deliveryMethod),
     ("deliveryDate", pyOrNullJ s.deliveryDate),
     ("notes", pyOrNullJ s.notes),
     ("internalNotes", pyOrNullJ s.internalNotes),
     ("referenceNumber", pyOrNullJ s.referenceNumber),
     ("poNumber", pyOrNullJ s.poNumber),
     ("poDate", pyOrNullJ s.poDate),
     ("printedNote", pyOrNullJ s.printedNote),
     ("package", pyOrNullJ s.package),
     ("deliveryNote", pyOrNullJ s.deliveryNote),
     ("dnNumber", pyOrNullJ s.dnNumber),
     ("dnDate", pyOrNullJ s.dnDate),
     ("dnNumber2", pyOrNullJ s.dnNumber2),
     ("dnDate2", pyOrNullJ s.dnDate2),
     ("dnNumber3", pyOrNullJ s.dnNumber3),
     ("dnDate3", pyOrNullJ s.dnDate3),
     ("paCupNumber", pyOrNullJ s.paCupNumber),
     ("paCigNumber", pyOrNullJ s.paCigNumber),
     ("paymentDate", pyOrNullJ s.paymentDate),
     ("paymentNote", pyOrNullJ s.paymentNote),
     ("bank", pyOrNullJ s.bank),
     ("coBankDescription", pyOrNullJ s.coBankDescription),
     ("coBankIban", pyOrNullJ s.coBankIban),
     ("ivaPercentage", .jnum (pyOrQ s.ivaPercentage 22)),
     ("vatOff", pyOrNullJ s.vatOff),
     ("currency", pyOrJ s.currency (.jstr "EUR")),
     ("status", .jstr (mapStatusT s.status)),
     ("invoiceGenerated", .jbool (pyOrB s.invoiceGenerated false)),
     ("invoiceNumber", pyOrNullJ s.invoiceNumber),
     ("numberT", pyOrNullJ s.numberT),
     ("year", pyOrNullJ s.year),
     ("linesCount", .jnum (s.lines.length : ℚ)),
     ("createdAt", .jstr createdAt),
     ("updatedAt", .jstr updatedAt),
     ("createdBy", .jstr "migration"),
     ("updatedBy", .jstr "migration"),
     ("_s9Id", .jstr (pyOrS s.firstId ""))]

/-- The sale metadata item built by `transform_sales.py` lines 46–102:
the literal dict followed by the
`{k: v for k, v in ... if v is not None}` filter (line 102). -/
def buildSaleItem (now : String) (saleId : String) (s : SrcSale) : Dict :=
  (saleItemEntries now saleId s).filter (fun kv => notNull kv.2)

/-! ## Sales extraction control flow (extract_sales.py lines 40–161)

The pymysql calls are modelled as the fallible components of `SalesDb`
(connection, `COUNT(*)` query, main sale query, per-sale line query);
the per-row field plumbing of lines 62–116 produces the `SrcSale` rows
carried by `salesQ`.  `PyErr` distinguishes a plain `Exception` — which
is what line 161 raises — from `utils.error_handler.ExtractionError`,
which `extract_sales.py` never raises. -/

inductive PyErr where
  | exc (msg : String)
  | extractionError (msg : String)
deriving DecidableEq, Repr

structure SalesDb where
  connectQ : Except String Unit
  countQ : Except String Nat
  salesQ : Except String (List SrcSale)
  linesQ : SrcSale → Except String (List FinSrc)

/-- The per-sale loop of lines 61–148: for each sale row, when
`include_lines and sale_id` holds the line query runs (and may fail),
and its rows are attached to the sale. -/
def attachLines (linesQ : SrcSale → Except String (List FinSrc)) (includeLines : Bool) :
    List SrcSale → Except String (List SrcSale)
  | [] => .ok []
  | s :: rest => do
      let s' ←
        if includeLines && !(pyOrS s.firstId "" = "") then do
          let ls ← linesQ s
          pure { s with lines := ls }
        else
          pure s
      let rest' ← attachLines linesQ includeLines rest
      pure (s' :: rest')

/-- `extract` of `extract_sales.py`: the whole body runs under
`try: ... except Exception as e: raise Exception(f"Failed to extract
sales: {str(e)}")`; the canonical output file (second component) is
written at line 154, only after every row has been processed. -/
def extractSales (db : SalesDb) (includeLines : Bool) :
    Except PyErr Nat × Option (List SrcSale) :=
  let run : Except String (List SrcSale) := do
    db.connectQ
    let _ ← db.countQ
    let rows ← db.salesQ
    attachLines db.linesQ includeLines rows
  match run with
  | .ok sales => (.ok sales.length, some sales)
  | .error e => (.error (.exc ("Failed to extract sales: " ++ e)), none)

def c9FailingDb : SalesDb :=
  { connectQ := .error "Connection refused"
    countQ := .ok 0
    salesQ := .ok []
    linesQ := fun _ => .ok [] }

/-- C9 counterexample: on a connection failure the extractor aborts with
a *plain* `Exception` (`"Failed to extract sales: ..."`), not with an
`ExtractionError`. -/
theorem c9_failure_is_plain_exception :
    (extractSales c9FailingDb true).1 =
      .error (.exc "Failed to extract sales: Connection refused") ∧
    (extractSales c9FailingDb true).1 ≠
      .error (.extractionError "Failed to extract sales: Connection refused") ∧
    (extractSales c9FailingDb true).2 = none := by
  have h1 : (extractSales c9FailingDb true).1 =
      .error (.exc "Failed to extract sales: Connection refused") := rfl
  refine ⟨h1, ?_, rfl⟩
  rw [h1]
  intro h
  simp at h

/-- C9 (amended): any query or connection failure aborts the sales
extraction and surfaces as a generic `Exception` wrapping the message
`"Failed to extract sales: ..."` (not as an `ExtractionError`), and no
partial canonical output is persisted: the extracted-sales file is
written exactly when every step succeeded. -/
theorem c9_extraction_atomic (db : SalesDb) (includeLines : Bool) :
    (∀ n, (extractSales db includeLines).1 = .ok n →
      ∃ sales, (extractSales db includeLines).2 = some sales ∧ n = sales.length) ∧
    (∀ err, (extractSales db includeLines).1 = .error err →
      (extractSales db includeLines).2 = none ∧
      ∃ m, err = .exc ("Failed to extract sales: " ++ m)) := by
  cases hrun : (do
      db.connectQ
      let _ ← db.countQ
      let rows ← db.salesQ
      attachLines db.linesQ includeLines rows : Except String (List SrcSale)) with
  | ok sales =>
      refine ⟨?_, ?_⟩
      · intro n hn
        refine ⟨sales, ?_, ?_⟩
        · simp [extractSales, hrun]
        · simp [extractSales, hrun] at hn
          omega
      · intro err herr
        simp [extractSales, hrun] at herr
  | error e =>
      refine ⟨?_, ?_⟩
      · intro n hn
        simp [extractSales, hrun] at hn
      · intro err herr
        have h2 : (extractSales db includeLines).2 = none := by
          simp [extractSales, hrun]
        simp only [extractSales, hrun, Except.error.injEq] at herr
        exact ⟨h2, e, herr.symm⟩

/-- A database where every step succeeds with no rows. -/
def c9OkDb : SalesDb :=
  { connectQ := .ok ()
    countQ := .ok 0
    salesQ := .ok []
    linesQ := fun _ => .ok [] }

/-- Witness for `c9_extraction_atomic`: on the failing database nothing
is persisted and the surfaced error is the wrapped plain exception; on
the all-success database the output file is written. -/
theorem c9_extraction_atomic_witness :
    ((extractSales c9FailingDb true).2 = none ∧
      ∃ m, (.exc ("Failed to extract sales: Connection refused") : PyErr) =
        .exc ("Failed to extract sales: " ++ m)) ∧
    ∃ sales, (extractSales c9OkDb true).2 = some sales ∧ 0 = sales.length :=
  ⟨(c9_extraction_atomic c9FailingDb true).2
      (.exc "Failed to extract sales: Connection refused") rfl,
    (c9_extraction_atomic c9OkDb true).1 0 rfl⟩

/-! ## Standalone validator (validate-migration.py)

`validateSale` embeds `MigrationValidator.validate_sale` (lines 23–94).
The validator state carries the record's `valid` flag and the error /
warning strings this record appends (`self.errors` / `self.warnings` are
global lists; `validateFileSales` concatenates the per-record deltas in
order, which yields the same lists).  Checks that call a string method
on a non-string value (`.startswith`) raise `AttributeError`, and the
business-rule arithmetic on non-numbers raises `TypeError`; both are
modelled as `Except.error` (the date check catches its
`ValueError`/`AttributeError`, lines 66–70).  `datetime.fromisoformat`
is external library code and is passed in as the `dateOk` oracle. -/

structure VState where
  valid : Bool
  errs : List String
  warns : List String
deriving Repr, DecidableEq

def initVState : VState := ⟨true, [], []⟩

def addErr (m : String) (st : VState) : VState :=
  { st with valid := false, errs := st.errs ++ [m] }

def addWarn (m : String) (st : VState) : VState :=
  { st with warns := st.warns ++ [m] }

/-- `sale.get('SaleId', 'UNKNOWN')` rendered into a message. -/
def saleIdU (d : Dict) : String :=
  match dlookup d "SaleId" with
  | some v => pyStr v
  | none => "UNKNOWN"

/-- `sale.get('SaleId')` (no default) rendered into a message. -/
def saleIdN (d : Dict) : String :=
  match dlookup d "SaleId" with
  | some v => pyStr v
  | none => "None"

def requiredMsg (d : Dict) (f : String) : String :=
  "Sale " ++ saleIdU d ++ ": Missing required field \x27" ++ f ++ "\x27"

def pkMsg (d : Dict) (s : String) : String :=
  "Sale " ++ saleIdN d ++ ": Invalid PK format: " ++ s

def skMsg (d : Dict) (v : JValue) : String :=
  "Sale " ++ saleIdN d ++ ": Invalid SK: " ++ pyStr v

def statusMsg (d : Dict) (v : JValue) : String :=
  "Sale " ++ saleIdN d ++ ": Invalid status: " ++ pyStr v

def numericMsg (d : Dict) (f : String) : String :=
  "Sale " ++ saleIdN d ++ ": " ++ f ++ " must be numeric"

def negMsg (d : Dict) (f : String) : String :=
  "Sale " ++ saleIdN d ++ ": " ++ f ++ " cannot be negative"

def dateMsg (d : Dict) (f : String) : String :=
  "Sale " ++ saleIdN d ++ ": Invalid date format for " ++ f

def gsiMsg (d : Dict) (name : String) : String :=
  "Sale " ++ saleIdN d ++ ": Invalid " ++ name ++ " format"

def mismatchMsg (d : Dict) (expected : ℚ) (rawTotal : JValue) : String :=
  "Sale " ++ saleIdN d ++ ": Total mismatch. Expected " ++ qRender expected ++
    ", got " ++ pyStr rawTotal

def saleRequiredFields : List String :=
  ["PK", "SK", "EntityType", "SaleId", "BuyerId", "ProducerId", "SaleDate", "Status", "Total"]

/-- One iteration of the required-field loop (lines 30–33). -/
def reqStep (d : Dict) (st : VState) (f : String) : VState :=
  match dlookup d f with
  | some v => if truthy v then st else addErr (requiredMsg d f) st
  | none => addErr (requiredMsg d f) st

def checkRequired (d : Dict) (st : VState) : VState :=
  saleRequiredFields.foldl (reqStep d) st

/-- PK format check (lines 36–38); `.startswith` on a non-string raises. -/
def checkPK (d : Dict) (st : VState) : Except String VState :=
  match dlookup d "PK" with
  | none => .ok st
  | some (.jstr s) =>
      if pyStartsWith s "SALE#" then .ok st else .ok (addErr (pkMsg d s) st)
  | some _ => .error "AttributeError"

/-- SK check (lines 41–43): plain `!=` comparison, never raises. -/
def checkSK (d : Dict) (st : VState) : VState :=
  match dlookup d "SK" with
  | none => st
  | some v => if v = .jstr "#METADATA#sale" then st else addErr (skMsg d v) st

def saleValidStatuses : List String :=
  ["DRAFT", "CONFIRMED", "INVOICED", "SHIPPED", "DELIVERED", "CANCELLED"]

/-- Status membership (lines 46–49): `in` on a list of strings. -/
def checkStatus (d : Dict) (st : VState) : VState :=
  match dlookup d "Status" with
  | none => st
  | some v =>
      match v with
      | .jstr s => if saleValidStatuses.contains s then st else addErr (statusMsg d v) st
      | _ => addErr (statusMsg d v) st

def saleNumericFields : List String := ["Total", "Subtotal", "Discount", "Tax"]

/-- `isinstance(v, (int, float))` — Python `bool` is a subclass of `int`. -/
def isPyNum : JValue → Bool
  | .jnum _ => true
  | .jbool _ => true
  | _ => false

def pyNumVal : JValue → ℚ
  | .jnum q => q
  | .jbool b => if b then 1 else 0
  | _ => 0

/-- One iteration of the numeric-field loop (lines 52–60). -/
def numStep (d : Dict) (st : VState) (f : String) : VState :=
  match dlookup d f with
  | none => st
  | some v =>
      if isPyNum v then
        if pyNumVal v < 0 then addErr (negMsg d f) st else st
      else addErr (numericMsg d f) st

def checkNumeric (d : Dict) (st : VState) : VState :=
  saleNumericFields.foldl (numStep d) st

def saleDateFields : List String := ["SaleDate", "CreatedAt", "UpdatedAt"]

/-- One iteration of the date loop (lines 63–70): runs only on present
truthy values; a parse failure or `.replace` on a non-string is caught
and recorded as an error. -/
def dateStep (dateOk : String → Bool) (d : Dict) (st : VState) (f : String) : VState :=
  match dlookup d f with
  | none => st
  | some v =>
      if truthy v then
        match v with
        | .jstr s =>
            if dateOk (s.replace "Z" "+00:00") then st else addErr (dateMsg d f) st
        | _ => addErr (dateMsg d f) st
      else st

def checkDates (dateOk : String → Bool) (d : Dict) (st : VState) : VState :=
  saleDateFields.foldl (dateStep dateOk d) st

/-- One GSI key check (lines 73–83). -/
def checkGSIKey (d : Dict) (key pre : String) (st : VState) : Except String VState :=
  match dlookup d key with
  | none => .ok st
  | some (.jstr s) =>
      if pyStartsWith s pre then .ok st else .ok (addErr (gsiMsg d key) st)
  | some _ => .error "AttributeError"

/-- Business rule (lines 86–92): when all four fields are present, the
arithmetic runs (raising `TypeError` on a non-number) and a deviation
beyond 0.01 appends a *warning*. -/
def checkBizRule (d : Dict) (st : VState) : Except String VState :=
  match dlookup d "Total", dlookup d "Subtotal", dlookup d "Discount", dlookup d "Tax" with
  | some tv, some sv, some dv, some xv =>
      if isPyNum tv && isPyNum sv && isPyNum dv && isPyNum xv then
        let expected := pyNumVal sv - pyNumVal dv + pyNumVal xv
        if |pyNumVal tv - expected| > 1/100 then
          .ok (addWarn (mismatchMsg d expected tv) st)
        else .ok st
      else .error "TypeError"
  | _, _, _, _ => .ok st

/-- `validate_sale` (lines 23–94), as the sequential composition of its
checks. -/
def validateSale (dateOk : String → Bool) (d : Dict) : Except String VState :=
  let st1 := checkRequired d initVState
  match checkPK d st1 with
  | .error e => .error e
  | .ok st2 =>
    let st3 := checkSK d st2
    let st4 := checkStatus d st3
    let st5 := checkNumeric d st4
    let st6 := checkDates dateOk d st5
    match checkGSIKey d "GSI1PK" "BUYER#" st6 with
    | .error e => .error e
    | .ok st7 =>
      match checkGSIKey d "GSI2PK" "PRODUCER#" st7 with
      | .error e => .error e
      | .ok st8 =>
        match checkGSIKey d "GSI3PK" "STATUS#" st8 with
        | .error e => .error e
        | .ok st9 => checkBizRule d st9

structure EntityStats where
  count : Nat
  valids : Nat
  invalids : Nat
deriving Repr, DecidableEq

/-- The per-record loop of `validate_file` for sales (lines 184–199):
counts valid/invalid records and accumulates the global error/warning
lists. -/
def validateFileSales (dateOk : String → Bool) :
    List Dict → EntityStats → List String → List String →
    Except String (EntityStats × List String × List String)
  | [], stats, errs, warns => .ok (stats, errs, warns)
  | d :: rest, stats, errs, warns =>
    match validateSale dateOk d with
    | .error e => .error e
    | .ok st =>
        validateFileSales dateOk rest
          ⟨stats.count + 1, stats.valids + (if st.valid then 1 else 0),
           stats.invalids + (if st.valid then 0 else 1)⟩
          (errs ++ st.errs) (warns ++ st.warns)

/-- The overall pass verdict of `main` (lines 267 and 302): report
`PASSED` / exit 0 exactly when `invalidRecords == 0 and
errorCount == 0`. -/
def overallPassed (invalidRecords errorCount : Nat) : Bool :=
  invalidRecords == 0 && errorCount == 0

/-! ### How checks change the validator state

Every check only appends messages: `StAdds st st'` says `st'` extends
`st` by some new errors `ne` and warnings `nw`, and the `valid` flag is
cleared exactly when an error was appended. -/

def StAdds (st st' : VState) : Prop :=
  ∃ ne nw, st'.errs = st.errs ++ ne ∧ st'.warns = st.warns ++ nw ∧
    st'.valid = (st.valid && ne.isEmpty)

theorem stAdds_refl (st : VState) : StAdds st st :=
  ⟨[], [], by simp, by simp, by simp⟩

theorem stAdds_trans {s1 s2 s3 : VState} (h1 : StAdds s1 s2) (h2 : StAdds s2 s3) :
    StAdds s1 s3 := by
  obtain ⟨ne1, nw1, he1, hw1, hv1⟩ := h1
  obtain ⟨ne2, nw2, he2, hw2, hv2⟩ := h2
  refine ⟨ne1 ++ ne2, nw1 ++ nw2, ?_, ?_, ?_⟩
  · rw [he2, he1, List.append_assoc]
  · rw [hw2, hw1, List.append_assoc]
  · rw [hv2, hv1]
    cases ne1 with
    | nil => simp
    | cons a as => simp

theorem stAdds_addErr (m : String) (st : VState) : StAdds st (addErr m st) :=
  ⟨[m], [], rfl, by simp [addErr], by simp [addErr]⟩

theorem stAdds_addWarn (m : String) (st : VState) : StAdds st (addWarn m st) :=
  ⟨[], [m], by simp [addWarn], rfl, by simp [addWarn]⟩

theorem stAdds_mem {st st' : VState} (h : StAdds st st') {x : String}
    (hx : x ∈ st.errs) : x ∈ st'.errs := by
  obtain ⟨ne, _, he, _, _⟩ := h
  rw [he]
  exact List.mem_append_left _ hx

theorem stAdds_foldl {g : VState → String → VState}
    (hg : ∀ st a, StAdds st (g st a)) (l : List String) (st : VState) :
    StAdds st (l.foldl g st) := by
  induction l generalizing st with
  | nil => exact stAdds_refl st
  | cons a as ih => exact stAdds_trans (hg st a) (ih (g st a))

theorem stAdds_reqStep (d : Dict) (st : VState) (f : String) :
    StAdds st (reqStep d st f) := by
  unfold reqStep
  split
  · split
    · exact stAdds_refl st
    · exact stAdds_addErr _ _
  · exact stAdds_addErr _ _

theorem stAdds_checkRequired (d : Dict) (st : VState) :
    StAdds st (checkRequired d st) :=
  stAdds_foldl (fun st' a => stAdds_reqStep d st' a) _ st

theorem stAdds_checkPK {d : Dict} {st st' : VState}
    (h : checkPK d st = .ok st') : StAdds st st' := by
  unfold checkPK at h
  split at h
  · cases h
    exact stAdds_refl st
  · split at h
    · cases h
      exact stAdds_refl st
    · cases h
      exact stAdds_addErr _ _
  · exact Except.noConfusion h

theorem stAdds_checkSK (d : Dict) (st : VState) : StAdds st (checkSK d st) := by
  unfold checkSK
  split
  · exact stAdds_refl st
  · split
    · exact stAdds_refl st
    · exact stAdds_addErr _ _

theorem stAdds_checkStatus (d : Dict) (st : VState) : StAdds st (checkStatus d st) := by
  unfold checkStatus
  split
  · exact stAdds_refl st
  · split
    · split
      · exact stAdds_refl st
      · exact stAdds_addErr _ _
    · exact stAdds_addErr _ _

theorem stAdds_numStep (d : Dict) (st : VState) (f : String) :
    StAdds st (numStep d st f) := by
  unfold numStep
  split
  · exact stAdds_refl st
  · split
    · split
      · exact stAdds_addErr _ _
      · exact stAdds_refl st
    · exact stAdds_addErr _ _

theorem stAdds_checkNumeric (d : Dict) (st : VState) : StAdds st (checkNumeric d st) :=
  stAdds_foldl (fun st' a => stAdds_numStep d st' a) _ st

theorem stAdds_dateStep (dateOk : String → Bool) (d : Dict) (st : VState) (f : String) :
    StAdds st (dateStep dateOk d st f) := by
  unfold dateStep
  split
  · exact stAdds_refl st
  · split
    · split
      · split
        · exact stAdds_refl st
        · exact stAdds_addErr _ _
      · exact stAdds_addErr _ _
    · exact stAdds_refl st

theorem stAdds_checkDates (dateOk : String → Bool) (d : Dict) (st : VState) :
    StAdds st (checkDates dateOk d st) :=
  stAdds_foldl (fun st' a => stAdds_dateStep dateOk d st' a) _ st

theorem stAdds_checkGSIKey {d : Dict} {key pre : String} {st st' : VState}
    (h : checkGSIKey d key pre st = .ok st') : StAdds st st' := by
  unfold checkGSIKey at h
  split at h
  · cases h
    exact stAdds_refl st
  · split at h
    · cases h
      exact stAdds_refl st
    · cases h
      exact stAdds_addErr _ _
  · exact Except.noConfusion h

/-- The business-rule check never touches the error list or the `valid`
flag: it can only add a warning. -/
theorem checkBizRule_only_warns {d : Dict} {st st' : VState}
    (h : checkBizRule d st = .ok st') :
    st'.errs = st.errs ∧ st'.valid = st.valid ∧ StAdds st st' := by
  unfold checkBizRule at h
  split at h
  · split at h
    · simp only [gt_iff_lt] at h
      split at h
      · cases h
        exact ⟨by simp [addWarn], by simp [addWarn], stAdds_addWarn _ _⟩
      · cases h
        exact ⟨rfl, rfl, stAdds_refl st⟩
    · exact Except.noConfusion h
  · cases h
    exact ⟨rfl, rfl, stAdds_refl st⟩

/-- Inversion of `validateSale`: a successful run yields the chain of
intermediate states. -/
theorem validateSale_ok_elim {dateOk : String → Bool} {d : Dict} {r : VState}
    (h : validateSale dateOk d = .ok r) :
    ∃ st2 st7 st8 st9,
      checkPK d (checkRequired d initVState) = .ok st2 ∧
      checkGSIKey d "GSI1PK" "BUYER#"
        (checkDates dateOk d (checkNumeric d (checkStatus d (checkSK d st2)))) = .ok st7 ∧
      checkGSIKey d "GSI2PK" "PRODUCER#" st7 = .ok st8 ∧
      checkGSIKey d "GSI3PK" "STATUS#" st8 = .ok st9 ∧
      checkBizRule d st9 = .ok r := by
  unfold validateSale at h
  dsimp only at h
  cases h2 : checkPK d (checkRequired d initVState) with
  | error e =>
      rw [h2] at h
      exact Except.noConfusion h
  | ok st2 =>
      rw [h2] at h
      dsimp only at h
      cases h7 : checkGSIKey d "GSI1PK" "BUYER#"
          (checkDates dateOk d (checkNumeric d (checkStatus d (checkSK d st2)))) with
      | error e =>
          rw [h7] at h
          exact Except.noConfusion h
      | ok st7 =>
          rw [h7] at h
          dsimp only at h
          cases h8 : checkGSIKey d "GSI2PK" "PRODUCER#" st7 with
          | error e =>
              rw [h8] at h
              exact Except.noConfusion h
          | ok st8 =>
              rw [h8] at h
              dsimp only at h
              cases h9 : checkGSIKey d "GSI3PK" "STATUS#" st8 with
              | error e =>
                  rw [h9] at h
                  exact Except.noConfusion h
              | ok st9 =>
                  rw [h9] at h
                  dsimp only at h
                  exact ⟨st2, st7, st8, st9, rfl, h7, h8, h9, h⟩

/-- A successful `validateSale` run only accumulates messages starting
from the clean state. -/
theorem validateSale_stAdds {dateOk : String → Bool} {d : Dict} {r : VState}
    (h : validateSale dateOk d = .ok r) : StAdds initVState r := by
  obtain ⟨st2, st7, st8, st9, h2, h7, h8, h9, hb⟩ := validateSale_ok_elim h
  have a1 := stAdds_checkRequired d initVState
  have a2 := stAdds_checkPK h2
  have a3 := stAdds_checkSK d st2
  have a4 := stAdds_checkStatus d (checkSK d st2)
  have a5 := stAdds_checkNumeric d (checkStatus d (checkSK d st2))
  have a6 := stAdds_checkDates dateOk d (checkNumeric d (checkStatus d (checkSK d st2)))
  have a7 := stAdds_checkGSIKey h7
  have a8 := stAdds_checkGSIKey h8
  have a9 := stAdds_checkGSIKey h9
  have ab := (checkBizRule_only_warns hb).2.2
  exact stAdds_trans a1 (stAdds_trans a2 (stAdds_trans a3 (stAdds_trans a4
    (stAdds_trans a5 (stAdds_trans a6 (stAdds_trans a7 (stAdds_trans a8
      (stAdds_trans a9 ab))))))))

/-- A record is valid exactly when it produced no errors (warnings do
not matter). -/
theorem validateSale_valid_iff {dateOk : String → Bool} {d : Dict} {r : VState}
    (h : validateSale dateOk d = .ok r) : r.valid = true ↔ r.errs = [] := by
  obtain ⟨ne, nw, he, hw, hv⟩ := validateSale_stAdds h
  simp only [initVState] at he hv
  rw [he, hv]
  simp [List.isEmpty_iff]

/-- C5: a deviation of `Total` from `Subtotal - Discount + Tax` beyond
0.01 produces a warning (never an error and never invalidity: the
business-rule check cannot touch the error list or the valid flag); a
record with zero errors is valid regardless of warnings and is counted
valid by `validate_file`; and the overall verdict passes exactly when
the error count and the invalid-record count are both zero. -/
theorem c5_total_mismatch_is_warning (dateOk : String → Bool) (d : Dict) :
    (∀ t s dc tx r,
      dlookup d "Total" = some (.jnum t) →
      dlookup d "Subtotal" = some (.jnum s) →
      dlookup d "Discount" = some (.jnum dc) →
      dlookup d "Tax" = some (.jnum tx) →
      |t - (s - dc + tx)| > 1/100 →
      validateSale dateOk d = .ok r →
      mismatchMsg d (s - dc + tx) (.jnum t) ∈ r.warns) ∧
    (∀ st st', checkBizRule d st = .ok st' →
      st'.errs = st.errs ∧ st'.valid = st.valid) ∧
    (∀ r, validateSale dateOk d = .ok r → (r.valid = true ↔ r.errs = [])) ∧
    (∀ r, validateSale dateOk d = .ok r → r.errs = [] →
      validateFileSales dateOk [d] ⟨0, 0, 0⟩ [] [] = .ok (⟨1, 1, 0⟩, r.errs, r.warns)) ∧
    (∀ invalidRecords errorCount,
      overallPassed invalidRecords errorCount = true ↔
        (errorCount = 0 ∧ invalidRecords = 0)) := by
  refine ⟨?_, ?_, ?_, ?_, ?_⟩
  · intro t s dc tx r hT hS hD hX hdev hr
    obtain ⟨st2, st7, st8, st9, h2, h7, h8, h9, hb⟩ := validateSale_ok_elim hr
    unfold checkBizRule at hb
    rw [hT, hS, hD, hX] at hb
    dsimp only at hb
    simp only [isPyNum, Bool.and_self, if_true, pyNumVal, gt_iff_lt] at hb
    rw [if_pos (by simpa [gt_iff_lt] using hdev)] at hb
    cases hb
    simp [addWarn]
  · intro st st' h
    exact ⟨(checkBizRule_only_warns h).1, (checkBizRule_only_warns h).2.1⟩
  · intro r hr
    exact validateSale_valid_iff hr
  · intro r hr hempty
    have hvalid : r.valid = true := (validateSale_valid_iff hr).mpr hempty
    unfold validateFileSales
    rw [hr]
    dsimp only
    rw [hvalid]
    simp [validateFileSales]
  · intro invalidRecords errorCount
    unfold overallPassed
    constructor
    · intro h
      simp only [Bool.and_eq_true, beq_iff_eq] at h
      exact ⟨h.2, h.1⟩
    · intro h
      simp [h.1, h.2]

/-- A well-formed sale whose header total (100) deviates from
`Subtotal - Discount + Tax = 95` by more than 0.01. -/
def c5ExampleSale : Dict :=
  [("PK", .jstr "SALE#1"), ("SK", .jstr "#METADATA#sale"),
   ("EntityType", .jstr "SALE"), ("SaleId", .jstr "S1"),
   ("BuyerId", .jstr "B1"), ("ProducerId", .jstr "P1"),
   ("SaleDate", .jstr "2024-01-01"), ("Status", .jstr "CONFIRMED"),
   ("Total", .jnum 100), ("Subtotal", .jnum 90),
   ("Discount", .jnum 0), ("Tax", .jnum 5)]

/-- Witness for `c5_total_mismatch_is_warning` at `c5ExampleSale`: the
mismatch warning is issued, the business-rule check left errors and
validity untouched, the record (with zero errors) is valid and counted
valid, and the verdict iff holds at (0, 0). -/
theorem c5_total_mismatch_is_warning_witness :
    mismatchMsg c5ExampleSale ((90 : ℚ) - 0 + 5) (.jnum 100) ∈
      (VState.mk true [] [mismatchMsg c5ExampleSale ((90 : ℚ) - 0 + 5) (.jnum 100)]).warns ∧
    ((addWarn (mismatchMsg c5ExampleSale ((90 : ℚ) - 0 + 5) (.jnum 100)) initVState).errs =
        initVState.errs ∧
      (addWarn (mismatchMsg c5ExampleSale ((90 : ℚ) - 0 + 5) (.jnum 100)) initVState).valid =
        initVState.valid) ∧
    ((VState.mk true [] [mismatchMsg c5ExampleSale ((90 : ℚ) - 0 + 5) (.jnum 100)]).valid =
        true ↔
      (VState.mk true [] [mismatchMsg c5ExampleSale ((90 : ℚ) - 0 + 5) (.jnum 100)]).errs = []) ∧
    validateFileSales (fun _ => true) [c5ExampleSale] ⟨0, 0, 0⟩ [] [] =
      .ok (⟨1, 1, 0⟩,
        (VState.mk true [] [mismatchMsg c5ExampleSale ((90 : ℚ) - 0 + 5) (.jnum 100)]).errs,
        (VState.mk true [] [mismatchMsg c5ExampleSale ((90 : ℚ) - 0 + 5) (.jnum 100)]).warns) ∧
    (overallPassed 0 0 = true ↔ ((0 : Nat) = 0 ∧ (0 : Nat) = 0)) := by
  have hr : validateSale (fun _ => true) c5ExampleSale =
      .ok ⟨true, [], [mismatchMsg c5ExampleSale ((90 : ℚ) - 0 + 5) (.jnum 100)]⟩ := by
    have h0 : validateSale (fun _ => true) c5ExampleSale =
        (if |(100 : ℚ) - ((90 : ℚ) - 0 + 5)| > 1/100 then
          Except.ok (addWarn (mismatchMsg c5ExampleSale ((90 : ℚ) - 0 + 5) (.jnum 100))
            initVState)
        else .ok initVState) := rfl
    rw [h0, if_pos (by norm_num)]
    rfl
  have hbiz : checkBizRule c5ExampleSale initVState =
      .ok (addWarn (mismatchMsg c5ExampleSale ((90 : ℚ) - 0 + 5) (.jnum 100)) initVState) := by
    have h0 : checkBizRule c5ExampleSale initVState =
        (if |(100 : ℚ) - ((90 : ℚ) - 0 + 5)| > 1/100 then
          Except.ok (addWarn (mismatchMsg c5ExampleSale ((90 : ℚ) - 0 + 5) (.jnum 100))
            initVState)
        else .ok initVState) := rfl
    rw [h0, if_pos (by norm_num)]
  have h := c5_total_mismatch_is_warning (fun _ => true) c5ExampleSale
  exact ⟨h.1 100 90 0 5 _ rfl rfl rfl rfl (by norm_num) hr,
    h.2.1 initVState _ hbiz,
    h.2.2.1 _ hr,
    h.2.2.2.1 _ hr rfl,
    h.2.2.2.2 0 0⟩

/-- C6: a sale in which any of the four declared numeric fields
(`Total`, `Subtotal`, `Discount`, `Tax`) is negative gets a
`"cannot be negative"` error for that field, is invalid, and is counted
invalid by `validate_file`. -/
theorem c6_negative_numeric_is_error (dateOk : String → Bool) (d : Dict)
    (f : String) (t : ℚ) (r : VState)
    (hf : f ∈ saleNumericFields)
    (hT : dlookup d f = some (.jnum t)) (ht : t < 0)
    (hr : validateSale dateOk d = .ok r) :
    negMsg d f ∈ r.errs ∧ r.valid = false ∧
    validateFileSales dateOk [d] ⟨0, 0, 0⟩ [] [] = .ok (⟨1, 0, 1⟩, r.errs, r.warns) := by
  obtain ⟨st2, st7, st8, st9, h2, h7, h8, h9, hb⟩ := validateSale_ok_elim hr
  have hstep : ∀ st : VState, negMsg d f ∈ (numStep d st f).errs := by
    intro st
    unfold numStep
    rw [hT]
    dsimp only
    simp only [isPyNum, if_true, pyNumVal]
    rw [if_pos ht]
    simp [addErr]
  have hcases : f = "Total" ∨ f = "Subtotal" ∨ f = "Discount" ∨ f = "Tax" := by
    simpa [saleNumericFields] using hf
  have hnum : ∀ st : VState, negMsg d f ∈ (checkNumeric d st).errs := by
    intro st
    unfold checkNumeric
    simp only [saleNumericFields, List.foldl_cons, List.foldl_nil]
    rcases hcases with h | h | h | h
    · subst h
      have a2 := stAdds_numStep d (numStep d st "Total") "Subtotal"
      have a3 := stAdds_numStep d (numStep d (numStep d st "Total") "Subtotal") "Discount"
      have a4 := stAdds_numStep d
        (numStep d (numStep d (numStep d st "Total") "Subtotal") "Discount") "Tax"
      exact stAdds_mem (stAdds_trans a2 (stAdds_trans a3 a4)) (hstep st)
    · subst h
      have a3 := stAdds_numStep d (numStep d (numStep d st "Total") "Subtotal") "Discount"
      have a4 := stAdds_numStep d
        (numStep d (numStep d (numStep d st "Total") "Subtotal") "Discount") "Tax"
      exact stAdds_mem (stAdds_trans a3 a4) (hstep (numStep d st "Total"))
    · subst h
      have a4 := stAdds_numStep d
        (numStep d (numStep d (numStep d st "Total") "Subtotal") "Discount") "Tax"
      exact stAdds_mem a4 (hstep (numStep d (numStep d st "Total") "Subtotal"))
    · subst h
      exact hstep (numStep d (numStep d (numStep d st "Total") "Subtotal") "Discount")
  have m5 : negMsg d f ∈ (checkNumeric d (checkStatus d (checkSK d st2))).errs :=
    hnum _
  have m6 := stAdds_mem (stAdds_checkDates dateOk d _) m5
  have m7 := stAdds_mem (stAdds_checkGSIKey h7) m6
  have m8 := stAdds_mem (stAdds_checkGSIKey h8) m7
  have m9 := stAdds_mem (stAdds_checkGSIKey h9) m8
  have hmem : negMsg d f ∈ r.errs := by
    rw [(checkBizRule_only_warns hb).1]
    exact m9
  have hvalid : r.valid = false := by
    cases hv : r.valid with
    | false => rfl
    | true =>
        have := (validateSale_valid_iff hr).mp hv
        rw [this] at hmem
        exact absurd hmem (List.not_mem_nil _)
  refine ⟨hmem, hvalid, ?_⟩
  unfold validateFileSales
  rw [hr]
  dsimp only
  rw [hvalid]
  simp [validateFileSales]

/-- A sale item whose `Total` is `-5`. -/
def c6ExampleSale : Dict := [("Total", .jnum (-5))]

/-- A sale item with a non-negative `Total` but a negative `Subtotal`. -/
def c6ExampleSale2 : Dict := [("Total", .jnum 10), ("Subtotal", .jnum (-3))]

/-- Witness for `c6_negative_numeric_is_error`: `Total = -5`, and
`Subtotal = -3` with a non-negative `Total`. -/
theorem c6_negative_numeric_is_error_witness :
    (negMsg c6ExampleSale "Total" ∈
      (VState.mk false
        [requiredMsg c6ExampleSale "PK", requiredMsg c6ExampleSale "SK",
         requiredMsg c6ExampleSale "EntityType", requiredMsg c6ExampleSale "SaleId",
         requiredMsg c6ExampleSale "BuyerId", requiredMsg c6ExampleSale "ProducerId",
         requiredMsg c6ExampleSale "SaleDate", requiredMsg c6ExampleSale "Status",
         negMsg c6ExampleSale "Total"] []).errs ∧
    (VState.mk false
        [requiredMsg c6ExampleSale "PK", requiredMsg c6ExampleSale "SK",
         requiredMsg c6ExampleSale "EntityType", requiredMsg c6ExampleSale "SaleId",
         requiredMsg c6ExampleSale "BuyerId", requiredMsg c6ExampleSale "ProducerId",
         requiredMsg c6ExampleSale "SaleDate", requiredMsg c6ExampleSale "Status",
         negMsg c6ExampleSale "Total"] []).valid = false ∧
    validateFileSales (fun _ => true) [c6ExampleSale] ⟨0, 0, 0⟩ [] [] =
      .ok (⟨1, 0, 1⟩,
        (VState.mk false
          [requiredMsg c6ExampleSale "PK", requiredMsg c6ExampleSale "SK",
           requiredMsg c6ExampleSale "EntityType", requiredMsg c6ExampleSale "SaleId",
           requiredMsg c6ExampleSale "BuyerId", requiredMsg c6ExampleSale "ProducerId",
           requiredMsg c6ExampleSale "SaleDate", requiredMsg c6ExampleSale "Status",
           negMsg c6ExampleSale "Total"] []).errs,
        (VState.mk false
          [requiredMsg c6ExampleSale "PK", requiredMsg c6ExampleSale "SK",
           requiredMsg c6ExampleSale "EntityType", requiredMsg c6ExampleSale "SaleId",
           requiredMsg c6ExampleSale "BuyerId", requiredMsg c6ExampleSale "ProducerId",
           requiredMsg c6ExampleSale "SaleDate", requiredMsg c6ExampleSale "Status",
           negMsg c6ExampleSale "Total"] []).warns)) ∧
    (negMsg c6ExampleSale2 "Subtotal" ∈
      (VState.mk false
        [requiredMsg c6ExampleSale2 "PK", requiredMsg c6ExampleSale2 "SK",
         requiredMsg c6ExampleSale2 "EntityType", requiredMsg c6ExampleSale2 "SaleId",
         requiredMsg c6ExampleSale2 "BuyerId", requiredMsg c6ExampleSale2 "ProducerId",
         requiredMsg c6ExampleSale2 "SaleDate", requiredMsg c6ExampleSale2 "Status",
         negMsg c6ExampleSale2 "Subtotal"] []).errs ∧
    (VState.mk false
        [requiredMsg c6ExampleSale2 "PK", requiredMsg c6ExampleSale2 "SK",
         requiredMsg c6ExampleSale2 "EntityType", requiredMsg c6ExampleSale2 "SaleId",
         requiredMsg c6ExampleSale2 "BuyerId", requiredMsg c6ExampleSale2 "ProducerId",
         requiredMsg c6ExampleSale2 "SaleDate", requiredMsg c6ExampleSale2 "Status",
         negMsg c6ExampleSale2 "Subtotal"] []).valid = false ∧
    validateFileSales (fun _ => true) [c6ExampleSale2] ⟨0, 0, 0⟩ [] [] =
      .ok (⟨1, 0, 1⟩,
        (VState.mk false
          [requiredMsg c6ExampleSale2 "PK", requiredMsg c6ExampleSale2 "SK",
           requiredMsg c6ExampleSale2 "EntityType", requiredMsg c6ExampleSale2 "SaleId",
           requiredMsg c6ExampleSale2 "BuyerId", requiredMsg c6ExampleSale2 "ProducerId",
           requiredMsg c6ExampleSale2 "SaleDate", requiredMsg c6ExampleSale2 "Status",
           negMsg c6ExampleSale2 "Subtotal"] []).errs,
        (VState.mk false
          [requiredMsg c6ExampleSale2 "PK", requiredMsg c6ExampleSale2 "SK",
           requiredMsg c6ExampleSale2 "EntityType", requiredMsg c6ExampleSale2 "SaleId",
           requiredMsg c6ExampleSale2 "BuyerId", requiredMsg c6ExampleSale2 "ProducerId",
           requiredMsg c6ExampleSale2 "SaleDate", requiredMsg c6ExampleSale2 "Status",
           negMsg c6ExampleSale2 "Subtotal"] []).warns)) :=
  ⟨c6_negative_numeric_is_error (fun _ => true) c6ExampleSale "Total" (-5) _
      (by decide) rfl (by norm_num) rfl,
    c6_negative_numeric_is_error (fun _ => true) c6ExampleSale2 "Subtotal" (-3) _
      (by decide) rfl (by norm_num) rfl⟩

/-! ### The transformer's sale item never satisfies the validator (C10) -/

/-- The keys of the transformer's sale metadata dict, in insertion
order. -/
def saleItemKeys : List String :=
  ["PK", "SK", "saleId", "saleNumber", "regNumber", "docType", "saleDate",
   "buyerId", "buyerName", "producerId", "producerName", "subtotal",
   "taxAmount", "total", "paymentMethod", "paymentTerms", "deliveryMethod",
   "deliveryDate", "notes", "internalNotes", "referenceNumber", "poNumber",
   "poDate", "printedNote", "package", "deliveryNote", "dnNumber", "dnDate",
   "dnNumber2", "dnDate2", "dnNumber3", "dnDate3", "paCupNumber",
   "paCigNumber", "paymentDate", "paymentNote", "bank", "coBankDescription",
   "coBankIban", "ivaPercentage", "vatOff", "currency", "status",
   "invoiceGenerated", "invoiceNumber", "numberT", "year", "linesCount",
   "createdAt", "updatedAt", "createdBy", "updatedBy", "_s9Id"]

theorem saleItemEntries_keys (now saleId : String) (s : SrcSale) :
    (saleItemEntries now saleId s).map Prod.fst = saleItemKeys := rfl

theorem dlookup_filter_of_not_mem (d : Dict) (p : String × JValue → Bool) (k : String)
    (h : ∀ kv ∈ d, kv.1 ≠ k) : dlookup (d.filter p) k = none := by
  induction d with
  | nil => rfl
  | cons kv rest ih =>
      obtain ⟨k', v⟩ := kv
      have hk : k' ≠ k := h (k', v) (List.mem_cons_self _ _)
      have hrest : ∀ kv ∈ rest, kv.1 ≠ k :=
        fun kv' h' => h kv' (List.mem_cons_of_mem _ h')
      simp only [List.filter]
      cases hp : p (k', v) with
      | false => exact ih hrest
      | true =>
          simp only [dlookup]
          rw [if_neg hk]
          exact ih hrest

/-- Any key the transformer does not emit is absent from the built sale
item. -/
theorem buildSaleItem_lookup_none (now saleId : String) (s : SrcSale) (k : String)
    (hk : k ∉ saleItemKeys) : dlookup (buildSaleItem now saleId s) k = none := by
  apply dlookup_filter_of_not_mem
  intro kv hkv hkk
  apply hk
  rw [← saleItemEntries_keys now saleId s]
  rw [← hkk]
  exact List.mem_map_of_mem Prod.fst hkv

theorem buildSaleItem_lookup_PK (now saleId : String) (s : SrcSale) :
    dlookup (buildSaleItem now saleId s) "PK" = some (.jstr ("SALE#" ++ saleId)) := by
  simp [buildSaleItem, saleItemEntries, List.filter, notNull, dlookup]

theorem buildSaleItem_lookup_SK (now saleId : String) (s : SrcSale) :
    dlookup (buildSaleItem now saleId s) "SK" = some (.jstr "METADATA") := by
  simp [buildSaleItem, saleItemEntries, List.filter, notNull, dlookup]

/-- C10: every sale metadata item the sales transformer produces is
rejected by the standalone validator: the item's sort key is
`'METADATA'` (not `'#METADATA#sale'`) and its attributes are camelCase,
so the capitalized required fields `EntityType`, `SaleId`, `BuyerId`,
`ProducerId`, `SaleDate`, `Status` and `Total` are all missing —
`validate_sale` returns invalid with exactly those seven
missing-field errors plus the invalid-SK error, and `validate_file`
counts the item invalid. -/
theorem c10_transformer_sale_item_rejected (dateOk : String → Bool)
    (now saleId : String) (s : SrcSale) :
    validateSale dateOk (buildSaleItem now saleId s) =
      .ok ⟨false,
        [requiredMsg (buildSaleItem now saleId s) "EntityType",
         requiredMsg (buildSaleItem now saleId s) "SaleId",
         requiredMsg (buildSaleItem now saleId s) "BuyerId",
         requiredMsg (buildSaleItem now saleId s) "ProducerId",
         requiredMsg (buildSaleItem now saleId s) "SaleDate",
         requiredMsg (buildSaleItem now saleId s) "Status",
         requiredMsg (buildSaleItem now saleId s) "Total",
         skMsg (buildSaleItem now saleId s) (.jstr "METADATA")], []⟩ ∧
    validateFileSales dateOk [buildSaleItem now saleId s] ⟨0, 0, 0⟩ [] [] =
      .ok (⟨1, 0, 1⟩,
        [requiredMsg (buildSaleItem now saleId s) "EntityType",
         requiredMsg (buildSaleItem now saleId s) "SaleId",
         requiredMsg (buildSaleItem now saleId s) "BuyerId",
         requiredMsg (buildSaleItem now saleId s) "ProducerId",
         requiredMsg (buildSaleItem now saleId s) "SaleDate",
         requiredMsg (buildSaleItem now saleId s) "Status",
         requiredMsg (buildSaleItem now saleId s) "Total",
         skMsg (buildSaleItem now saleId s) (.jstr "METADATA")], []) := by
  have lPK := buildSaleItem_lookup_PK now saleId s
  have lSK := buildSaleItem_lookup_SK now saleId s
  have lET := buildSaleItem_lookup_none now saleId s "EntityType" (by decide)
  have lSI := buildSaleItem_lookup_none now saleId s "SaleId" (by decide)
  have lBI := buildSaleItem_lookup_none now saleId s "BuyerId" (by decide)
  have lPI := buildSaleItem_lookup_none now saleId s "ProducerId" (by decide)
  have lSD := buildSaleItem_lookup_none now saleId s "SaleDate" (by decide)
  have lST := buildSaleItem_lookup_none now saleId s "Status" (by decide)
  have lTO := buildSaleItem_lookup_none now saleId s "Total" (by decide)
  have lSub := buildSaleItem_lookup_none now saleId s "Subtotal" (by decide)
  have lDis := buildSaleItem_lookup_none now saleId s "Discount" (by decide)
  have lTax := buildSaleItem_lookup_none now saleId s "Tax" (by decide)
  have lCA := buildSaleItem_lookup_none now saleId s "CreatedAt" (by decide)
  have lUA := buildSaleItem_lookup_none now saleId s "UpdatedAt" (by decide)
  have lG1 := buildSaleItem_lookup_none now saleId s "GSI1PK" (by decide)
  have lG2 := buildSaleItem_lookup_none now saleId s "GSI2PK" (by decide)
  have lG3 := buildSaleItem_lookup_none now saleId s "GSI3PK" (by decide)
  have htPK : truthy (.jstr ("SALE#" ++ saleId)) = true := by
    simp only [truthy, Bool.not_eq_true']
    exact decide_eq_false (append_ne_empty_left "SALE#" saleId (by decide))
  have hsw : pyStartsWith ("SALE#" ++ saleId) "SALE#" = true :=
    pyStartsWith_append "SALE#" saleId
  have hmain : validateSale dateOk (buildSaleItem now saleId s) =
      .ok ⟨false,
        [requiredMsg (buildSaleItem now saleId s) "EntityType",
         requiredMsg (buildSaleItem now saleId s) "SaleId",
         requiredMsg (buildSaleItem now saleId s) "BuyerId",
         requiredMsg (buildSaleItem now saleId s) "ProducerId",
         requiredMsg (buildSaleItem now saleId s) "SaleDate",
         requiredMsg (buildSaleItem now saleId s) "Status",
         requiredMsg (buildSaleItem now saleId s) "Total",
         skMsg (buildSaleItem now saleId s) (.jstr "METADATA")], []⟩ := by
    unfold validateSale
    simp only [checkRequired, saleRequiredFields, List.foldl_cons, List.foldl_nil,
      reqStep, checkPK, checkSK, checkStatus, checkNumeric, saleNumericFields,
      numStep, checkDates, saleDateFields, dateStep, checkGSIKey, checkBizRule,
      lPK, lSK, lET, lSI, lBI, lPI, lSD, lST, lTO, lSub, lDis, lTax, lCA, lUA,
      lG1, lG2, lG3, htPK, hsw, initVState, addErr, if_true]
    simp [truthy, addErr]
  refine ⟨hmain, ?_⟩
  unfold validateFileSales
  rw [hmain]
  dsimp only
  simp [validateFileSales]
